import Mathlib

/-!
# Verification of `feedgen.item` (Episode) and `feedgen.media` (Media)

A shallow embedding of the two source modules of this repository:
`src/feedgen/item.py` (class `BaseEpisode`) and `src/feedgen/media.py`
(class `Media`).  Optional Python attributes become `Option` values,
Python exceptions become `Except` results, and the `warnings` side
channel becomes an explicit list of advisory warnings.  Python
truthiness on strings ("" is falsy) and on dicts (a non-empty dict is
truthy) is modelled explicitly where the source relies on it.

String primitives are implemented over `List Char` by structural
recursion so that every definition evaluates inside the kernel.
-/

set_option autoImplicit false

namespace Podgen

/-- Python truthiness of an optional string attribute: `None` and the
empty string are falsy, every other string is truthy. -/
def truthyOpt : Option String → Bool
  | none => false
  | some s => s != ""

/-- ASCII lower-casing of a character list (Python `str.lower` on the
ASCII strings handled here). -/
def pyToLower (s : List Char) : List Char :=
  s.map Char.toLower

/-- Python `str.lstrip(chars)`: drop the longest prefix of characters
drawn from `chars`. -/
def pyLstrip (s : List Char) (chars : List Char) : List Char :=
  s.dropWhile (fun c => chars.contains c)

/-- Python `str.rstrip(chars)`: drop the longest suffix of characters
drawn from `chars`. -/
def pyRstrip (s : List Char) (chars : List Char) : List Char :=
  (s.reverse.dropWhile (fun c => chars.contains c)).reverse

/-- Python `str.strip()`: remove surrounding whitespace. -/
def pyStrip (s : List Char) : List Char :=
  ((s.dropWhile Char.isWhitespace).reverse.dropWhile Char.isWhitespace).reverse

/-- Split a character list at every occurrence of `sep` (Python
`str.split(sep)` for a single-character separator). -/
def splitCharAux (sep : Char) : List Char → List Char → List (List Char)
  | [], acc => [acc.reverse]
  | c :: rest, acc =>
      if c = sep then acc.reverse :: splitCharAux sep rest []
      else splitCharAux sep rest (c :: acc)

/-- Python `s.split(sep)` for a one-character separator. -/
def splitChar (sep : Char) (s : List Char) : List (List Char) :=
  splitCharAux sep s []

/-- Python `s.split(sep)[-1]`: the substring after the last occurrence
of the one-character separator (the whole string if `sep` is absent). -/
def afterLast (sep : Char) (s : List Char) : List Char :=
  (splitChar sep s).getLastD s

/-- Locate the first occurrence of `pat` in `s`, returning the parts
before and after it. -/
def findSubstr (pat : List Char) : List Char → Option (List Char × List Char)
  | [] => if pat = [] then some ([], []) else none
  | c :: rest =>
      if pat.isPrefixOf (c :: rest) then some ([], (c :: rest).drop pat.length)
      else
        match findSubstr pat rest with
        | some (pre, post) => some (c :: pre, post)
        | none => none

/-- Decimal digits to the `Nat` they denote. -/
def digitsToNat (cs : List Char) : Nat :=
  cs.foldl (fun n c => n * 10 + (c.toNat - 48)) 0

/-- Modelled from the spec: Python `int()` applied to a string (used by
the `size` setter before falling back to `_str_to_bytes`).  Accepts an
optional sign followed by decimal digits, with surrounding whitespace. -/
def pyStrToInt (s : String) : Option Int :=
  match pyStrip s.toList with
  | '-' :: rest =>
      if rest ≠ [] ∧ rest.all Char.isDigit then some (-(digitsToNat rest : Int))
      else none
  | '+' :: rest =>
      if rest ≠ [] ∧ rest.all Char.isDigit then some (digitsToNat rest : Int)
      else none
  | cs =>
      if cs ≠ [] ∧ cs.all Char.isDigit then some (digitsToNat cs : Int)
      else none

/-- A non-special Python float represented exactly as a signed scaled
decimal: the value is `(-1)^neg * mantissa / 10^scale`.  Exact for every
decimal string `float()` is given here. -/
structure PyFloat where
  neg : Bool
  mantissa : Nat
  scale : Nat
deriving Repr, DecidableEq

/-- Modelled from the spec: Python `float()` on the numeric portion of a
size string.  Handles the signed decimal forms (`"12"`, `"12.5"`,
`".5"`, `"5."`, `"-5"`) that the size parser can feed it; anything else
fails like `float` raising `ValueError`. -/
def pyStrToFloat (s : String) : Option PyFloat :=
  let core : List Char → Option PyFloat := fun cs =>
    match splitChar '.' cs with
    | [a] =>
        if a ≠ [] ∧ a.all Char.isDigit then some ⟨false, digitsToNat a, 0⟩
        else none
    | [a, b] =>
        if (a ≠ [] ∨ b ≠ []) ∧ a.all Char.isDigit ∧ b.all Char.isDigit then
          some ⟨false, digitsToNat a * 10 ^ b.length + digitsToNat b, b.length⟩
        else none
    | _ => none
  match pyStrip s.toList with
  | '-' :: rest => (core rest).map fun f => { f with neg := true }
  | '+' :: rest => core rest
  | cs => core cs

/-- Modelled from the spec: Python `round(number * mult)` for a scaled
decimal `number` and an integer unit multiplier (banker's rounding:
ties go to the even neighbour). -/
def pyRoundMul (f : PyFloat) (mult : Nat) : Int :=
  let p := 10 ^ f.scale
  let n := f.mantissa * mult
  let q := n / p
  let r := n % p
  let mag : Nat :=
    if 2 * r < p then q else if 2 * r > p then q + 1
    else if q % 2 = 0 then q else q + 1
  if f.neg then -(mag : Int) else (mag : Int)

/-- Result of `urllib.parse.urlparse` restricted to the parts the source
reads: `scheme` and `path`. -/
structure ParsedUrl where
  scheme : String
  path : String
deriving Repr, DecidableEq

/-- Modelled from the spec: `urllib.parse.urlparse` for the URL shapes
exercised here (`scheme://netloc/path` and scheme-less strings).  The
scheme is lower-cased as `urlparse` does; a string without `"://"` has
empty scheme and is taken wholly as path; with a scheme, the path is
everything from the first `/` after the authority. -/
def urlparse (url : String) : ParsedUrl :=
  match findSubstr "://".toList url.toList with
  | none => ⟨"", url⟩
  | some (schemeCs, rest) =>
      ⟨String.mk (pyToLower schemeCs), String.mk (rest.dropWhile (fun c => c ≠ '/'))⟩

/-! ## Media (`src/feedgen/media.py`) -/

/-- Errors raised by `Media` (all `ValueError`; `floatConversion` is the
`ValueError` coming out of Python's `float` itself). -/
inductive MediaError where
  /-- Message "url cannot be empty or None". -/
  | emptyUrl
  /-- Message "Type cannot be empty or None". -/
  | emptyType
  /-- Python float(): "could not convert string to float: ..." with the
  offending numeric portion. -/
  | floatConversion (numericPart : String)
  /-- Message "The unit %s was not recognized.". -/
  | unitNotRecognized (unit : String)
  /-- get_type: "The file extension %s was not recognized, ..." -/
  | extNotRecognized (ext : String)
deriving Repr, DecidableEq

/-- Advisory warnings issued through Python's `warnings` channel
(`NotSupportedByItunesWarning` and the size-0 `UserWarning`). -/
inductive MediaWarning where
  /-- Message "File extension %s is not supported by iTunes.". -/
  | unsupportedExtension (ext : String)
  /-- Message "URL scheme %s is not supported by iTunes. ...". -/
  | unsupportedScheme (scheme : String)
  /-- Message "Size is set to 0. ...". -/
  | sizeZero
  /-- Message "Media type %s is not supported by iTunes.". -/
  | unsupportedType
deriving Repr, DecidableEq

/-- The fixed extension → MIME table `Media.file_types`. -/
def file_types : List (String × String) :=
  [("m4a", "audio/x-m4a"),
   ("mp3", "audio/mpeg"),
   ("mov", "video/quicktime"),
   ("mp4", "video/mp4"),
   ("m4v", "video/x-m4v"),
   ("pdf", "application/pdf"),
   ("epub", "document/x-epub")]

/-- Extension of the URL's parsed path, exactly as both the url setter
and `get_type` compute it before any case adjustment:
`urlparse(url).path.split('.')[-1]`. -/
def path_file_extension (url : String) : String :=
  String.mk (afterLast '.' (urlparse url).path.toList)

/-- Lower-cased variant of the path extension, as the url setter alone
uses it. -/
def path_file_extension_lower (url : String) : String :=
  String.mk (pyToLower (afterLast '.' (urlparse url).path.toList))

/-- Warnings issued by the url setter: unsupported (lower-cased)
extension, then unsupported scheme. -/
def url_warnings (url : String) : List MediaWarning :=
  (if (file_types.lookup (path_file_extension_lower url)).isNone then
      [MediaWarning.unsupportedExtension (path_file_extension_lower url)] else []) ++
  (if (urlparse url).scheme ≠ "http" ∧ (urlparse url).scheme ≠ "https" then
      [MediaWarning.unsupportedScheme (urlparse url).scheme] else [])

/-- Setter for `Media.url`: rejects an empty url, then warns (non-fatally)
when the LOWER-CASED extension of the parsed path is not in
`file_types` or when the scheme is not http/https; the value is stored
regardless of warnings. -/
def url_setter (url : String) : Except MediaError (String × List MediaWarning) :=
  if url = "" then .error .emptyUrl
  else .ok (url, url_warnings url)

/-- Model of `Media._str_to_bytes`: lower-case, strip, drop spaces; the numeric
portion is the string with trailing unit letters (`bkimgt`) removed and
is fed to `float`; the unit is the string with leading digits and dots
removed and is looked up in the fixed unit table.  A failed `float`
propagates as its own error; a missing unit raises
"The unit ... was not recognized.". -/
def str_to_bytes (size : String) : Except MediaError Int :=
  let units : List (String × Nat) :=
    [("b", 1), ("kb", 1000), ("kib", 1024),
     ("mb", 1000000), ("mib", 1048576),
     ("gb", 1000000000), ("gib", 1073741824),
     ("tb", 1000000000000), ("tib", 1099511627776)]
  let s := (pyStrip (pyToLower size.toList)).filter (fun c => c ≠ ' ')
  let numericPart := pyRstrip s ['b', 'k', 'i', 'm', 'g', 't']
  match pyStrToFloat (String.mk numericPart) with
  | none => .error (.floatConversion (String.mk numericPart))
  | some number =>
      let unit := String.mk (pyLstrip s ['0', '1', '2', '3', '4', '5', '6', '7', '8', '9', '.'])
      match units.lookup unit with
      | some mult => .ok (pyRoundMul number mult)
      | none => .error (.unitNotRecognized unit)

/-- The argument accepted by the `Media.size` setter: an int, a string,
or `None`. -/
inductive SizeArg where
  | int (n : Int)
  | str (s : String)
  | noneArg
deriving Repr, DecidableEq

/-- The `size` setter entered with an int in hand (the state after
`size = int(size)` succeeded).  A negative int raises `ValueError`
inside the `try`, which the `except ValueError` handler catches by
re-entering through `_str_to_bytes(size)` — where `size` is now the
negative int, whose decimal string always fails the unit lookup (its
leading "-" ends up in the unit).  A stored 0 warns. -/
def size_set_int (n : Int) : Except MediaError (Int × List MediaWarning) :=
  if n < 0 then
    match str_to_bytes (toString n) with
    | .error e => .error e
    | .ok b =>
        -- the handler re-enters the setter with b; `_str_to_bytes` never
        -- returns a negative number, so the re-entry takes the plain branch
        .ok (b, if b = 0 then [MediaWarning.sizeZero] else [])
  else .ok (n, if n = 0 then [MediaWarning.sizeZero] else [])

/-- Setter for `Media.size`.  `int(size)` succeeds directly on ints and on
integer-literal strings; on other strings it raises `ValueError`, whose
handler calls `_str_to_bytes` on the original string and re-enters with
the result; on `None` it raises `TypeError`, whose handler stores 0. -/
def size_setter : SizeArg → Except MediaError (Int × List MediaWarning)
  | .int n => size_set_int n
  | .str s =>
      match pyStrToInt s with
      | some n => size_set_int n
      | none =>
          match str_to_bytes s with
          | .error e => .error e
          | .ok b => .ok (b, if b = 0 then [MediaWarning.sizeZero] else [])
  | .noneArg => .ok (0, [MediaWarning.sizeZero])

/-- Normalisation performed by the type setter: strip then lower-case. -/
def type_norm (type : String) : String :=
  String.mk (pyToLower (pyStrip type.toList))

/-- Warning issued by the type setter when the normalised MIME type is
not one of the values of `file_types`. -/
def type_warnings (type : String) : List MediaWarning :=
  if (file_types.map Prod.snd).contains (type_norm type) then []
  else [MediaWarning.unsupportedType]

/-- Setter for `Media.type`: rejects a falsy value, trims and lower-cases,
warns (non-fatally) when the result is not one of the MIME values of
`file_types`. -/
def type_setter (type : String) : Except MediaError (String × List MediaWarning) :=
  if type = "" then .error .emptyType
  else .ok (type_norm type, type_warnings type)

/-- Model of `Media.get_type`: looks the URL path's extension up in `file_types`
WITHOUT lower-casing it; an unknown extension raises `ValueError`. -/
def get_type (url : String) : Except MediaError String :=
  match file_types.lookup (path_file_extension url) with
  | some t => .ok t
  | none => .error (.extNotRecognized (path_file_extension url))

/-- The `Media` record after successful construction. -/
structure Media where
  url : String
  size : Int
  type : String
deriving Repr, DecidableEq

/-- Model of `Media.__init__(url, size=0, type=None)`: runs the `url` setter,
then the `size` setter, then `self.type = type or self.get_type(url)`
(a falsy `type` argument triggers inference from the url).  Warnings
issued before an error are reported alongside the error, matching
Python's side-effecting `warnings` channel. -/
def Media.init (url : String) (size : SizeArg) (type : Option String) :
    List MediaWarning × Except MediaError Media :=
  match url_setter url with
  | .error e => ([], .error e)
  | .ok (u, w1) =>
      match size_setter size with
      | .error e => (w1, .error e)
      | .ok (sz, w2) =>
          let inferred : Except MediaError String :=
            match type with
            | some t => if t ≠ "" then .ok t else get_type url
            | none => get_type url
          match inferred with
          | .error e => (w1 ++ w2, .error e)
          | .ok t0 =>
              match type_setter t0 with
              | .error e => (w1 ++ w2, .error e)
              | .ok (ty, w3) => (w1 ++ w2 ++ w3, .ok ⟨u, sz, ty⟩)

/-! ## Episode (`src/feedgen/item.py`) -/

/-- A Python `datetime.datetime`: its `tzinfo` is modelled by the UTC
offset in minutes, `none` meaning a naive datetime. -/
structure PyDatetime where
  year : Nat
  month : Nat
  day : Nat
  hour : Nat
  minute : Nat
  second : Nat
  tzOffsetMinutes : Option Int
deriving Repr, DecidableEq

/-- Parse an ISO-8601 offset suffix: nothing (naive), `Z`, or
`±HH:MM`. -/
def isoOffset : List Char → Option (Option Int)
  | [] => some none
  | ['Z'] => some (some 0)
  | [sgn, h1, h2, ':', m1, m2] =>
      if (sgn = '+' ∨ sgn = '-') ∧ [h1, h2, m1, m2].all Char.isDigit then
        let mins : Int := (digitsToNat [h1, h2] * 60 + digitsToNat [m1, m2] : Nat)
        some (some (if sgn = '-' then -mins else mins))
      else none
  | _ => some none

/-- Modelled from the spec: `dateutil.parser.parse` (an external
library) on the ISO-8601 timestamps used here; a timestamp without an
offset parses to a naive datetime (`tzOffsetMinutes = none`), an
unparseable string raises. -/
def dateutil_parse (s : String) : Option PyDatetime :=
  match s.toList with
  | y1 :: y2 :: y3 :: y4 :: '-' :: m1 :: m2 :: '-' :: d1 :: d2 :: 'T' ::
      h1 :: h2 :: ':' :: n1 :: n2 :: ':' :: s1 :: s2 :: rest =>
      if [y1, y2, y3, y4, m1, m2, d1, d2, h1, h2, n1, n2, s1, s2].all Char.isDigit then
        match isoOffset rest with
        | some tz =>
            some ⟨digitsToNat [y1, y2, y3, y4], digitsToNat [m1, m2],
                  digitsToNat [d1, d2], digitsToNat [h1, h2],
                  digitsToNat [n1, n2], digitsToNat [s1, s2], tz⟩
        | none => none
      else none
  | _ => none

/-- Two-digit rendering of a time component. -/
def two (n : Nat) : String :=
  if n < 10 then "0" ++ toString n else toString n

/-- Month abbreviation used by the RFC 2822 rendering. -/
def monthName (m : Nat) : String :=
  ["Jan", "Feb", "Mar", "Apr", "May", "Jun",
   "Jul", "Aug", "Sep", "Oct", "Nov", "Dec"].getD (m - 1) "Jan"

/-- Offset rendering used by the RFC 2822 rendering. -/
def offsetText : Option Int → String
  | none => ""
  | some mins =>
      (if mins < 0 then "-" else "+") ++ two (mins.natAbs / 60) ++ two (mins.natAbs % 60)

/-- Modelled from the spec: `feedgen.util.formatRFC2822` (the module
`feedgen/util.py` is not part of the sources) renders the stored
datetime in RFC 2822 textual form; no claim depends on its exact text. -/
def formatRFC2822 (d : PyDatetime) : String :=
  toString d.day ++ " " ++ monthName d.month ++ " " ++ toString d.year ++ " " ++
    two d.hour ++ ":" ++ two d.minute ++ ":" ++ two d.second ++ " " ++
    offsetText d.tzOffsetMinutes

/-- The stored `__rss_content` dict: key `content` is always present,
key `type` only when a type was given.  As a non-empty Python dict the
stored value is always truthy, whatever the strings are. -/
structure RssContent where
  content : String
  type : Option String
deriving Repr, DecidableEq

/-- The stored `__rss_enclosure` dict: the accessor fills `url`, but
stores `length` and `type` exactly as given, possibly `None`. -/
structure Enclosure where
  url : String
  length : Option String
  type : Option String
deriving Repr, DecidableEq

/-- A stored category: `value` plus optional `domain`. -/
structure Category where
  value : String
  domain : Option String
deriving Repr, DecidableEq

/-- The state of a `BaseEpisode`: one optional attribute per private
field set in `__init__` (the never-read `__rss_source` is omitted). -/
structure Episode where
  rss_author : Option (List String) := none
  rss_category : Option (List Category) := none
  rss_comments : Option String := none
  rss_description : Option String := none
  rss_content : Option RssContent := none
  rss_enclosure : Option Enclosure := none
  rss_guid : Option String := none
  rss_link : Option String := none
  rss_pubDate : Option PyDatetime := none
  rss_title : Option String := none
  itunes_author : Option String := none
  itunes_block : Option Bool := none
  itunes_image : Option String := none
  itunes_duration : Option String := none
  itunes_explicit : Option String := none
  itunes_is_closed_captioned : Option Bool := none
  itunes_order : Option Int := none
  itunes_subtitle : Option String := none
  itunes_summary : Option String := none
deriving Repr, DecidableEq

/-- A freshly constructed episode: every field unset. -/
def Episode.empty : Episode := {}

/-! ### Field accessors -/

/-- Model of `BaseEpisode.title`: get-or-set, no validation. -/
def title_call (e : Episode) (title : Option String) : Episode × Option String :=
  match title with
  | none => (e, e.rss_title)
  | some t =>
      let e := { e with rss_title := some t }
      (e, e.rss_title)

/-- Model of `BaseEpisode.description`: get-or-set, no validation. -/
def description_call (e : Episode) (description : Option String) :
    Episode × Option String :=
  match description with
  | none => (e, e.rss_description)
  | some d =>
      let e := { e with rss_description := some d }
      (e, e.rss_description)

/-- Model of `BaseEpisode.content`: stores `{'content': content}` and
adds the `type` key only when a type argument was given. -/
def content_call (e : Episode) (content : Option String) (type : Option String) :
    Episode × Option RssContent :=
  match content with
  | none => (e, e.rss_content)
  | some c =>
      let e := { e with rss_content := some ⟨c, type⟩ }
      (e, e.rss_content)

/-- An author record: a Python dict that may carry `name` and `email`. -/
structure AuthorInput where
  name : Option String
  email : Option String
deriving Repr, DecidableEq

/-- Modelled from the spec: `feedgen.util.ensure_format` (the module
`feedgen/util.py` is not part of the sources) — each record is validated
against an allowed-field set ({name, email}) and a required-field set
({email}); the record type already restricts the fields to the allowed
set, so only the required check remains. -/
def ensure_format (authors : List AuthorInput) : Except String (List AuthorInput) :=
  if authors.all (fun a => a.email.isSome) then .ok authors
  else .error "Missing required author fields"

/-- Python format expression `'%s (%s)' % (a['email'], a['name'])`;
reading a missing `name` key raises `KeyError`, checked by the caller. -/
def formatAuthor (a : AuthorInput) : String :=
  a.email.getD "" ++ " (" ++ a.name.getD "" ++ ")"

/-- Model of `BaseEpisode.author`: the stored list is cleared up front
when `replace` is set or when no list exists yet (so a later failure
leaves the cleared list behind); `ensure_format` validates; the list
comprehension then reads `a['name']`, raising `KeyError` when a record
has no name; otherwise the formatted strings are appended. -/
def author_call (e : Episode) (author : Option (List AuthorInput)) (replace : Bool) :
    Episode × Except String (Option (List String)) :=
  match author with
  | none => (e, .ok e.rss_author)
  | some recs =>
      let e1 := if replace || e.rss_author.isNone then
          { e with rss_author := some [] } else e
      match ensure_format recs with
      | .error msg => (e1, .error msg)
      | .ok as =>
          if as.all (fun a => a.name.isSome) then
            let e2 := { e1 with
              rss_author := some ((e1.rss_author.getD []) ++ as.map formatAuthor) }
            (e2, .ok e2.rss_author)
          else (e1, .error "KeyError: name")

/-- Model of `BaseEpisode.enclosure`: when a url is given, the dict
`{'url': url, 'length': length, 'type': type}` is stored with `length`
and `type` exactly as passed — absent values are stored as `None`. -/
def enclosure_call (e : Episode) (url length type : Option String) :
    Episode × Option Enclosure :=
  match url with
  | none => (e, e.rss_enclosure)
  | some u =>
      let e := { e with rss_enclosure := some ⟨u, length, type⟩ }
      (e, e.rss_enclosure)

/-- The argument given to `published`: a string, a datetime, or any
other Python value. -/
inductive PublishedArg where
  | str (s : String)
  | dt (d : PyDatetime)
  | otherValue
deriving Repr, DecidableEq

/-- Model of `BaseEpisode.published`: a string argument is parsed by
`dateutil`; the value must then be a datetime, and its tzinfo must be
non-None; only after all checks pass is the field assigned, so a
failure leaves the state untouched. -/
def published_call (e : Episode) (published : Option PublishedArg) :
    Episode × Except String (Option PyDatetime) :=
  match published with
  | none => (e, .ok e.rss_pubDate)
  | some arg =>
      let parsed : Except String PyDatetime :=
        match arg with
        | .str s =>
            match dateutil_parse s with
            | some d => .ok d
            | none => .error "ParserError: Unknown string format"
        | .dt d => .ok d
        | .otherValue => .error "Invalid datetime format"
      match parsed with
      | .error msg => (e, .error msg)
      | .ok d =>
          if d.tzOffsetMinutes.isNone then
            (e, .error "Datetime object has no timezone info")
          else
            let e := { e with rss_pubDate := some d }
            (e, .ok e.rss_pubDate)

/-- Python tuple-`endswith` over the three accepted image extensions. -/
def imageExtOk (s : String) : Bool :=
  (".jpg".toList.isSuffixOf s.toList) || (".jpeg".toList.isSuffixOf s.toList) ||
    (".png".toList.isSuffixOf s.toList)

/-- Model of `BaseEpisode.itunes_image`: the lower-cased filename must
end in .jpg/.jpeg/.png, else `ValueError` is raised before assignment. -/
def itunes_image_call (e : Episode) (itunes_image : Option String) :
    Episode × Except String (Option String) :=
  match itunes_image with
  | none => (e, .ok e.itunes_image)
  | some img =>
      if !imageExtOk (String.mk (pyToLower img.toList)) then
        (e, .error ("Image filename must end with png or jpg, not ."
          ++ String.mk (afterLast '.' img.toList)))
      else
        let e := { e with itunes_image := some img }
        (e, .ok e.itunes_image)

/-- Model of `BaseEpisode.itunes_explicit`: the value must be one of
"", "yes", "no", "clean", else `ValueError` is raised before
assignment. -/
def itunes_explicit_call (e : Episode) (itunes_explicit : Option String) :
    Episode × Except String (Option String) :=
  match itunes_explicit with
  | none => (e, .ok e.itunes_explicit)
  | some x =>
      if x = "" ∨ x = "yes" ∨ x = "no" ∨ x = "clean" then
        let e := { e with itunes_explicit := some x }
        (e, .ok e.itunes_explicit)
      else (e, .error ("Invalid value for explicit tag: " ++ x))

/-- The Python value an accessor call evaluates to: either a field
value, or — for the final `return self.itunes_duration` of
`itunes_duration` — the bound method object itself. -/
inductive PyRet (α : Type) where
  | val (v : α)
  | boundMethod
deriving Repr, DecidableEq

/-- The argument of `itunes_duration`: str or int. -/
inductive DurationArg where
  | str (s : String)
  | int (n : Int)
deriving Repr, DecidableEq

/-- Python `str()` of the duration argument. -/
def DurationArg.toStr : DurationArg → String
  | .str s => s
  | .int n => toString n

/-- The malformed-duration condition of `itunes_duration`: more than 3
colon-separated parts, or characters outside digits and colons.  The
source constructs `ValueError(...)` on this condition but never raises
it. -/
def durationFormatBad (d : String) : Bool :=
  (splitChar ':' d.toList).length > 3 ||
    !(pyLstrip d.toList ['0', '1', '2', '3', '4', '5', '6', '7', '8', '9', ':']).isEmpty

/-- Model of `BaseEpisode.itunes_duration`: the setter stringifies and
stores the value unconditionally (the `ValueError` built on
`durationFormatBad` is discarded, never raised); the final
`return self.itunes_duration` evaluates to the BOUND METHOD — the
private field `self.__itunes_duration` is never returned. -/
def itunes_duration_call (e : Episode) (itunes_duration : Option DurationArg) :
    Episode × PyRet (Option String) :=
  match itunes_duration with
  | none => (e, .boundMethod)
  | some d =>
      ({ e with itunes_duration := some d.toStr }, .boundMethod)

/-! ### Rendering (`rss_entry`) -/

/-- Text content of a rendered XML element. -/
inductive NodeText where
  | noText
  | plain (s : String)
  | cdata (s : String)
deriving Repr, DecidableEq

/-- A child element of the rendered item: tag, attributes in assignment
order, text. -/
structure SubElem where
  tag : String
  attrs : List (String × String)
  text : NodeText
deriving Repr, DecidableEq

/-- The rendered `item` element with its children in emission order. -/
structure RssItem where
  tag : String
  children : List SubElem
deriving Repr, DecidableEq

/-- Namespace URI of the RSS content module. -/
def contentNS : String := "http://purl.org/rss/1.0/modules/content/"

/-- Namespace URI of the iTunes podcast extension. -/
def itunesNS : String := "http://www.itunes.com/dtds/podcast-1.0.dtd"

/-- Clark notation for a namespaced tag, as lxml renders
`'\x7b%s\x7dencoded' % ns`. -/
def nsTag (ns tag : String) : String := "\x7b" ++ ns ++ "\x7d" ++ tag

/-- Tag of the content-namespace `encoded` element. -/
def encodedTag : String := nsTag contentNS "encoded"

/-- A `description` child element. -/
def descElem (s : String) : SubElem := ⟨"description", [], .plain s⟩

/-- Truthiness test `not (title or description or content)` guarding
`rss_entry` (line 58 of item.py): the stored content dict is a
non-empty dict, hence truthy whenever present. -/
def rss_guard (e : Episode) : Bool :=
  truthyOpt e.rss_title || truthyOpt e.rss_description || e.rss_content.isSome

/-- Emission of `title` (truthy check). -/
def titleKids (e : Episode) : List SubElem :=
  if truthyOpt e.rss_title then [⟨"title", [], .plain (e.rss_title.getD "")⟩] else []

/-- Emission of `link` (truthy check). -/
def linkKids (e : Episode) : List SubElem :=
  if truthyOpt e.rss_link then [⟨"link", [], .plain (e.rss_link.getD "")⟩] else []

/-- Emission of the description/content block (lines 66-78 of item.py):
both truthy — description plus content-namespace `encoded` (CDATA iff
the stored type is "CDATA"); only description truthy — description;
only content present — description carrying the content's text. -/
def descContentKids (e : Episode) : List SubElem :=
  if truthyOpt e.rss_description && e.rss_content.isSome then
    match e.rss_content with
    | some c =>
        [descElem (e.rss_description.getD ""),
         ⟨encodedTag, [],
          if c.type.getD "" = "CDATA" then .cdata c.content else .plain c.content⟩]
    | none => []
  else if truthyOpt e.rss_description then
    [descElem (e.rss_description.getD "")]
  else
    match e.rss_content with
    | some c => [descElem c.content]
    | none => []

/-- Emission of one `author` element per stored author string. -/
def authorKids (e : Episode) : List SubElem :=
  (e.rss_author.getD []).map (fun a => ⟨"author", [], .plain a⟩)

/-- Emission of `guid` with the fixed isPermaLink attribute. -/
def guidKids (e : Episode) : List SubElem :=
  if truthyOpt e.rss_guid then
    [⟨"guid", [("isPermaLink", "false")], .plain (e.rss_guid.getD "")⟩] else []

/-- Emission of one `category` element per stored category, with the
domain attribute when truthy. -/
def categoryKids (e : Episode) : List SubElem :=
  (e.rss_category.getD []).map (fun cat =>
    ⟨"category",
     if truthyOpt cat.domain then [("domain", cat.domain.getD "")] else [],
     .plain cat.value⟩)

/-- Emission of `comments` (truthy check). -/
def commentsKids (e : Episode) : List SubElem :=
  if truthyOpt e.rss_comments then
    [⟨"comments", [], .plain (e.rss_comments.getD "")⟩] else []

/-- Assignment of an optional value to an lxml attribute: assigning
`None` raises `TypeError` inside lxml. -/
def attrValue : Option String → Except String String
  | some s => .ok s
  | none => .error "TypeError: Argument must be bytes or unicode, got NoneType"

/-- Emission of `enclosure` (lines 94-98 of item.py): the three
attributes are assigned in order url, length, type; a `None` length or
type makes the attribute assignment raise. -/
def enclosureKids (e : Episode) : Except String (List SubElem) :=
  match e.rss_enclosure with
  | none => .ok []
  | some enc =>
      match attrValue enc.length, attrValue enc.type with
      | .ok l, .ok t =>
          .ok [⟨"enclosure", [("url", enc.url), ("length", l), ("type", t)], .noText⟩]
      | .error msg, _ => .error msg
      | _, .error msg => .error msg

/-- Emission of `pubDate` (a datetime object is always truthy). -/
def pubDateKids (e : Episode) : List SubElem :=
  match e.rss_pubDate with
  | some d => [⟨"pubDate", [], .plain (formatRFC2822 d)⟩]
  | none => []

/-- Emission of itunes:author (truthy check). -/
def itunesAuthorKids (e : Episode) : List SubElem :=
  if truthyOpt e.itunes_author then
    [⟨nsTag itunesNS "author", [], .plain (e.itunes_author.getD "")⟩] else []

/-- Emission of itunes:block ("yes"/"no", present whenever set). -/
def itunesBlockKids (e : Episode) : List SubElem :=
  match e.itunes_block with
  | some b => [⟨nsTag itunesNS "block", [], .plain (if b then "yes" else "no")⟩]
  | none => []

/-- Emission of itunes:image (href attribute, truthy check). -/
def itunesImageKids (e : Episode) : List SubElem :=
  if truthyOpt e.itunes_image then
    [⟨nsTag itunesNS "image", [("href", e.itunes_image.getD "")], .noText⟩] else []

/-- Emission of itunes:duration (truthy check). -/
def itunesDurationKids (e : Episode) : List SubElem :=
  if truthyOpt e.itunes_duration then
    [⟨nsTag itunesNS "duration", [], .plain (e.itunes_duration.getD "")⟩] else []

/-- Emission of itunes:explicit, only for the three valid values. -/
def itunesExplicitKids (e : Episode) : List SubElem :=
  match e.itunes_explicit with
  | some x =>
      if x = "yes" ∨ x = "no" ∨ x = "clean" then
        [⟨nsTag itunesNS "explicit", [], .plain x⟩] else []
  | none => []

/-- Emission of itunes:isClosedCaptioned ("yes"/"no", present whenever
set). -/
def itunesCaptionKids (e : Episode) : List SubElem :=
  match e.itunes_is_closed_captioned with
  | some b =>
      [⟨nsTag itunesNS "isClosedCaptioned", [], .plain (if b then "yes" else "no")⟩]
  | none => []

/-- Emission of itunes:order, only when set and non-negative. -/
def itunesOrderKids (e : Episode) : List SubElem :=
  match e.itunes_order with
  | some n => if 0 ≤ n then [⟨nsTag itunesNS "order", [], .plain (toString n)⟩] else []
  | none => []

/-- Emission of itunes:subtitle (truthy check). -/
def itunesSubtitleKids (e : Episode) : List SubElem :=
  if truthyOpt e.itunes_subtitle then
    [⟨nsTag itunesNS "subtitle", [], .plain (e.itunes_subtitle.getD "")⟩] else []

/-- Emission of itunes:summary (truthy check). -/
def itunesSummaryKids (e : Episode) : List SubElem :=
  if truthyOpt e.itunes_summary then
    [⟨nsTag itunesNS "summary", [], .plain (e.itunes_summary.getD "")⟩] else []

/-- Emission of the iTunes fields in source order (lines 106-140 of
item.py). -/
def itunesKids (e : Episode) : List SubElem :=
  itunesAuthorKids e ++ itunesBlockKids e ++ itunesImageKids e ++
    itunesDurationKids e ++ itunesExplicitKids e ++ itunesCaptionKids e ++
    itunesOrderKids e ++ itunesSubtitleKids e ++ itunesSummaryKids e

/-- Model of `BaseEpisode.rss_entry`: raise when title, description and
content are all falsy; otherwise emit the children in source order.
The only other failure point is the enclosure attribute assignment. -/
def rss_entry (e : Episode) : Except String RssItem :=
  if !rss_guard e then .error "Required fields not set"
  else
    match enclosureKids e with
    | .error msg => .error msg
    | .ok encl =>
        .ok ⟨"item",
          titleKids e ++ linkKids e ++ descContentKids e ++ authorKids e ++
            guidKids e ++ categoryKids e ++ commentsKids e ++ encl ++
            pubDateKids e ++ itunesKids e⟩

/-- Validity of whatever enclosure is set: length and type are both
present, so the attribute assignments in `rss_entry` cannot raise. -/
def enclosureValid (e : Episode) : Prop :=
  ∀ enc, e.rss_enclosure = some enc → enc.length.isSome ∧ enc.type.isSome

/-- Predicate selecting the description and content-encoded children of
a rendered item. -/
def isDescOrEncoded (k : SubElem) : Bool :=
  k.tag == "description" || k.tag == encodedTag

/-- Description/content emission as claim C2 describes it, with
description "set" read as holding a non-empty (truthy) string — the
amendment — and content "set" as any stored content dict: both present
— the description text plus the content-namespace encoded element,
CDATA-wrapped exactly when the stored type is "CDATA"; only description
— just the description element; only content — a description element
carrying the content text. -/
def claimedDescContent (desc : Option String) (c : Option RssContent) : List SubElem :=
  match truthyOpt desc, c with
  | true, some c =>
      [descElem (desc.getD ""),
       ⟨encodedTag, [],
        if c.type.getD "" = "CDATA" then .cdata c.content else .plain c.content⟩]
  | true, none => [descElem (desc.getD "")]
  | false, some c => [descElem c.content]
  | false, none => []

/-- Discriminator for the unit-not-recognized failure of `Media`. -/
def isUnitError : MediaError → Bool
  | .unitNotRecognized _ => true
  | _ => false

example : size_setter (.str "2MB") = .ok (2000000, []) := rfl
example : size_setter (.str "2MiB") = .ok (2097152, []) := rfl
example : size_setter (.str "2xb") = .error (.floatConversion "2x") := rfl
example : size_setter (.str "2kg") = .error (.unitNotRecognized "kg") := rfl
example : size_setter (.str "12.5MB") = .ok (12500000, []) := rfl
example : size_setter (.int 0) = .ok (0, [.sizeZero]) := rfl
example : size_setter (.int (-5)) = .error (.unitNotRecognized "-5") := rfl
example : (Media.init "http://x.com/a.ogg" (.int 0) none).2
    = .error (.extNotRecognized "ogg") := rfl
example : (Media.init "http://x.com/a.ogg" (.int 0) none).1
    = [.unsupportedExtension "ogg", .sizeZero] := rfl
example : (Media.init "http://x.com/a.MP3" (.int 0) none).2
    = .error (.extNotRecognized "MP3") := rfl
example : url_setter "http://x.com/a.MP3" = .ok ("http://x.com/a.MP3", []) := rfl
example : (Media.init "http://x.com/a.ogg" (.int 5) (some "audio/ogg")).2
    = .ok ⟨"http://x.com/a.ogg", 5, "audio/ogg"⟩ := rfl
example : (Media.init "http://x.com/a.ogg" (.int 5) (some "audio/ogg")).1
    = [.unsupportedExtension "ogg", .unsupportedType] := rfl
example : (Media.init "ftp://x.com/a.mp3" (.int 5) none).2
    = .ok ⟨"ftp://x.com/a.mp3", 5, "audio/mpeg"⟩ := rfl
example : (Media.init "ftp://x.com/a.mp3" (.int 5) none).1
    = [.unsupportedScheme "ftp"] := rfl
example : (Media.init "http://example.org/1.mp3" (.int 136532744) none).2
    = .ok ⟨"http://example.org/1.mp3", 136532744, "audio/mpeg"⟩ := rfl
example : rss_entry Episode.empty = .error "Required fields not set" := rfl
example : rss_entry { Episode.empty with rss_title := some "t" }
    = .ok ⟨"item", [⟨"title", [], .plain "t"⟩]⟩ := rfl
example : rss_entry { Episode.empty with rss_title := some "" }
    = .error "Required fields not set" := rfl
example : rss_entry { Episode.empty with
      rss_description := some "d", rss_content := some ⟨"c", some "CDATA"⟩ }
    = .ok ⟨"item", [descElem "d", ⟨encodedTag, [], .cdata "c"⟩]⟩ := rfl
example : rss_entry { Episode.empty with
      rss_description := some "d", rss_content := some ⟨"c", none⟩ }
    = .ok ⟨"item", [descElem "d", ⟨encodedTag, [], .plain "c"⟩]⟩ := rfl
example : rss_entry { Episode.empty with
      rss_description := some "", rss_content := some ⟨"c", some "CDATA"⟩ }
    = .ok ⟨"item", [descElem "c"]⟩ := rfl
example : rss_entry { Episode.empty with rss_content := some ⟨"c", none⟩ }
    = .ok ⟨"item", [descElem "c"]⟩ := rfl
example : rss_entry { Episode.empty with
      rss_title := some "t", rss_enclosure := some ⟨"u", none, none⟩ }
    = .error "TypeError: Argument must be bytes or unicode, got NoneType" := rfl
example : rss_entry { Episode.empty with
      rss_title := some "t",
      rss_enclosure := some ⟨"u", some "123", some "audio/mpeg"⟩ }
    = .ok ⟨"item", [⟨"title", [], .plain "t"⟩,
        ⟨"enclosure", [("url", "u"), ("length", "123"), ("type", "audio/mpeg")], .noText⟩]⟩ := rfl
example : published_call Episode.empty (some (.str "2020-01-01T00:00:00+00:00"))
    = ({ Episode.empty with rss_pubDate := some ⟨2020, 1, 1, 0, 0, 0, some 0⟩ },
       .ok (some ⟨2020, 1, 1, 0, 0, 0, some 0⟩)) := rfl
example : published_call Episode.empty (some (.str "2020-01-01T00:00:00"))
    = (Episode.empty, .error "Datetime object has no timezone info") := rfl
example : (itunes_duration_call
      (itunes_duration_call Episode.empty (some (.int 90))).1 none).2
    = .boundMethod := rfl
example : (itunes_duration_call Episode.empty (some (.int 90))).1.itunes_duration
    = some "90" := rfl

/-! ## Claims -/

/-- C5 (counterexample): the size string "2xb" does raise a validation
failure, but NOT one reporting an unrecognized unit: `rstrip("bkimgt")`
strips the trailing "b" into the numeric portion, leaving "2x", so the
failure is the float-conversion `ValueError` on "2x"; the unit lookup is
never reached. -/
theorem size_2xb_counterexample :
    size_setter (.str "2xb") = .error (.floatConversion "2x") ∧
    isUnitError (MediaError.floatConversion "2x") = false :=
  ⟨rfl, rfl⟩

/-- C5 (amended): "2MB" normalizes to 2000000 bytes and "2MiB" to
2097152 bytes; "2xb" raises a validation failure, which is the float
conversion failure on the numeric portion "2x" rather than the
unit-not-recognized failure; a size such as "2kg", whose trailing
letters are all unit letters, does produce the unit-not-recognized
failure. -/
theorem size_parsing_amended :
    size_setter (.str "2MB") = .ok (2000000, []) ∧
    size_setter (.str "2MiB") = .ok (2097152, []) ∧
    size_setter (.str "2xb") = .error (.floatConversion "2x") ∧
    size_setter (.str "2kg") = .error (.unitNotRecognized "kg") :=
  ⟨rfl, rfl, rfl, rfl⟩

/-- C3: the claim is right and the code is wrong.  After
`itunes_duration(90)` the stringified duration "90" IS stored, but the
accessor ends in `return self.itunes_duration`, which evaluates to the
bound method object rather than the stored private field, so a
subsequent no-argument call can never return the stored value. -/
theorem itunes_duration_bug :
    (itunes_duration_call Episode.empty (some (.int 90))).1.itunes_duration
      = some "90" ∧
    (itunes_duration_call
        (itunes_duration_call Episode.empty (some (.int 90))).1 none).2
      = PyRet.boundMethod ∧
    PyRet.boundMethod ≠ PyRet.val (some "90") :=
  ⟨rfl, rfl, by decide⟩

/-- C7: parsing "2020-01-01T00:00:00+00:00" succeeds, stores the
timestamp with its zero offset, and a subsequent no-argument call
returns it; the offset-less "2020-01-01T00:00:00" is rejected with the
no-timezone `ValueError` and changes nothing; and the setter preserves
the invariant that a stored publication date carries timezone
information. -/
theorem published_tz (e : Episode) :
    published_call e (some (.str "2020-01-01T00:00:00+00:00"))
      = ({ e with rss_pubDate := some ⟨2020, 1, 1, 0, 0, 0, some 0⟩ },
         .ok (some ⟨2020, 1, 1, 0, 0, 0, some 0⟩)) ∧
    (published_call (published_call e
        (some (.str "2020-01-01T00:00:00+00:00"))).1 none).2
      = .ok (some ⟨2020, 1, 1, 0, 0, 0, some 0⟩) ∧
    (published_call e (some (.str "2020-01-01T00:00:00"))).2
      = .error "Datetime object has no timezone info" ∧
    (published_call e (some (.str "2020-01-01T00:00:00"))).1 = e ∧
    (∀ arg, (∀ d, e.rss_pubDate = some d → d.tzOffsetMinutes ≠ none) →
      ∀ d, (published_call e arg).1.rss_pubDate = some d →
        d.tzOffsetMinutes ≠ none) := by
  refine ⟨rfl, rfl, rfl, rfl, ?_⟩
  intro arg hinv d hd
  rcases arg with _ | arg
  · exact hinv d hd
  rcases arg with s | d0 | _
  · rcases hp : dateutil_parse s with _ | d1
    · simp [published_call, hp] at hd
      exact hinv d hd
    · rcases h0 : d1.tzOffsetMinutes with _ | off
      · simp [published_call, hp, h0] at hd
        exact hinv d hd
      · simp [published_call, hp, h0] at hd
        subst hd
        simp [h0]
  · rcases h0 : d0.tzOffsetMinutes with _ | off
    · simp [published_call, h0] at hd
      exact hinv d hd
    · simp [published_call, h0] at hd
      subst hd
      simp [h0]
  · simp [published_call] at hd
    exact hinv d hd

/-- Closed instantiation of `published_tz` at a fresh episode and the
parsed 2020-01-01 timestamp. -/
theorem published_tz_witness :
    (⟨2020, 1, 1, 0, 0, 0, some 0⟩ : PyDatetime).tzOffsetMinutes ≠ none :=
  (published_tz Episode.empty).2.2.2.2
    (some (.str "2020-01-01T00:00:00+00:00")) (fun _ h => nomatch h)
    ⟨2020, 1, 1, 0, 0, 0, some 0⟩ rfl

/-- C8: for author records that all carry name and email, the stored
list after `author(recs, replace=True)` is exactly the "email (name)"
strings in record order (also returned by the call and by a subsequent
no-argument read), and with `replace=False` the new strings are
appended after the existing ones. -/
theorem author_roundtrip (e : Episode) (recs : List AuthorInput)
    (h : ∀ a ∈ recs, a.name.isSome ∧ a.email.isSome) :
    (author_call e (some recs) true).1.rss_author
      = some (recs.map formatAuthor) ∧
    (author_call e (some recs) true).2
      = .ok (some (recs.map formatAuthor)) ∧
    (author_call (author_call e (some recs) true).1 none false).2
      = .ok (some (recs.map formatAuthor)) ∧
    (author_call e (some recs) false).1.rss_author
      = some (e.rss_author.getD [] ++ recs.map formatAuthor) := by
  have hmail : recs.all (fun a => a.email.isSome) = true :=
    List.all_eq_true.mpr (fun a ha => (h a ha).2)
  have hname : recs.all (fun a => a.name.isSome) = true :=
    List.all_eq_true.mpr (fun a ha => (h a ha).1)
  have hok : ensure_format recs = .ok recs := by
    unfold ensure_format
    rw [if_pos hmail]
  refine ⟨?_, ?_, ?_, ?_⟩
  · simp [author_call, hok, hname]
  · simp [author_call, hok, hname]
  · simp [author_call, hok, hname]
  · rcases ha : e.rss_author with _ | l <;>
      simp [author_call, hok, hname, ha]

/-- Closed instantiation of `author_roundtrip` on a single
name-and-email record. -/
theorem author_roundtrip_witness :
    (author_call Episode.empty
        (some [⟨some "John Doe", some "jdoe@example.com"⟩]) true).1.rss_author
      = some ["jdoe@example.com (John Doe)"] :=
  (author_roundtrip Episode.empty
    [⟨some "John Doe", some "jdoe@example.com"⟩] (by decide)).1

/-- C9: the three validating setters raise before assigning, so any
failing call leaves the whole episode state exactly as it was. -/
theorem setters_preserve_state_on_error (e : Episode) :
    (∀ arg msg, (published_call e (some arg)).2 = .error msg →
      (published_call e (some arg)).1 = e) ∧
    (∀ s msg, (itunes_image_call e (some s)).2 = .error msg →
      (itunes_image_call e (some s)).1 = e) ∧
    (∀ s msg, (itunes_explicit_call e (some s)).2 = .error msg →
      (itunes_explicit_call e (some s)).1 = e) := by
  refine ⟨?_, ?_, ?_⟩
  · intro arg msg hd
    rcases arg with s | d0 | _
    · rcases hp : dateutil_parse s with _ | d1
      · simp [published_call, hp]
      · rcases h0 : d1.tzOffsetMinutes with _ | off
        · simp [published_call, hp, h0]
        · simp [published_call, hp, h0] at hd
    · rcases h0 : d0.tzOffsetMinutes with _ | off
      · simp [published_call, h0]
      · simp [published_call, h0] at hd
    · rfl
  · intro s msg
    dsimp only [itunes_image_call]
    split
    · intro _; rfl
    · intro hd; exact absurd hd (by simp)
  · intro s msg
    dsimp only [itunes_explicit_call]
    split
    · intro hd; exact absurd hd (by simp)
    · intro _; rfl

/-- Closed instantiation of `setters_preserve_state_on_error`: the
invalid explicit value "maybe" is rejected and the state is unchanged. -/
theorem setters_preserve_state_witness :
    (itunes_explicit_call Episode.empty (some "maybe")).1 = Episode.empty :=
  (setters_preserve_state_on_error Episode.empty).2.2 "maybe"
    "Invalid value for explicit tag: maybe" rfl

/-! ### Rendering lemmas shared by C1, C2 and C6 -/

theorem enclosureKids_ok_of_valid (e : Episode) (henc : enclosureValid e) :
    ∃ l, enclosureKids e = .ok l ∧ l.filter isDescOrEncoded = [] := by
  rcases he : e.rss_enclosure with _ | enc
  · exact ⟨[], by unfold enclosureKids; rw [he], rfl⟩
  · obtain ⟨hl, ht⟩ := henc enc he
    rcases hlen : enc.length with _ | lv
    · simp [hlen] at hl
    rcases hty : enc.type with _ | tv
    · simp [hty] at ht
    exact ⟨[⟨"enclosure", [("url", enc.url), ("length", lv), ("type", tv)], .noText⟩],
      by simp only [enclosureKids, he, hlen, hty, attrValue], rfl⟩

theorem rss_entry_ok (e : Episode) (l : List SubElem)
    (hg : rss_guard e = true) (hl : enclosureKids e = .ok l) :
    rss_entry e = .ok ⟨"item",
      titleKids e ++ linkKids e ++ descContentKids e ++ authorKids e ++
        guidKids e ++ categoryKids e ++ commentsKids e ++ l ++
        pubDateKids e ++ itunesKids e⟩ := by
  unfold rss_entry
  rw [hg, hl]
  rfl

theorem filter_titleKids (e : Episode) :
    (titleKids e).filter isDescOrEncoded = [] := by
  unfold titleKids; split <;> rfl

theorem filter_linkKids (e : Episode) :
    (linkKids e).filter isDescOrEncoded = [] := by
  unfold linkKids; split <;> rfl

theorem filter_authorKids (e : Episode) :
    (authorKids e).filter isDescOrEncoded = [] := by
  unfold authorKids
  generalize e.rss_author.getD [] = l
  induction l with
  | nil => rfl
  | cons a t ih => exact ih

theorem filter_guidKids (e : Episode) :
    (guidKids e).filter isDescOrEncoded = [] := by
  unfold guidKids; split <;> rfl

theorem filter_categoryKids (e : Episode) :
    (categoryKids e).filter isDescOrEncoded = [] := by
  unfold categoryKids
  generalize e.rss_category.getD [] = l
  induction l with
  | nil => rfl
  | cons a t ih => exact ih

theorem filter_commentsKids (e : Episode) :
    (commentsKids e).filter isDescOrEncoded = [] := by
  unfold commentsKids; split <;> rfl

theorem filter_pubDateKids (e : Episode) :
    (pubDateKids e).filter isDescOrEncoded = [] := by
  unfold pubDateKids; split <;> rfl

theorem filter_itunesAuthorKids (e : Episode) :
    (itunesAuthorKids e).filter isDescOrEncoded = [] := by
  unfold itunesAuthorKids; split <;> rfl

theorem filter_itunesBlockKids (e : Episode) :
    (itunesBlockKids e).filter isDescOrEncoded = [] := by
  unfold itunesBlockKids; split <;> rfl

theorem filter_itunesImageKids (e : Episode) :
    (itunesImageKids e).filter isDescOrEncoded = [] := by
  unfold itunesImageKids; split <;> rfl

theorem filter_itunesDurationKids (e : Episode) :
    (itunesDurationKids e).filter isDescOrEncoded = [] := by
  unfold itunesDurationKids; split <;> rfl

theorem filter_itunesExplicitKids (e : Episode) :
    (itunesExplicitKids e).filter isDescOrEncoded = [] := by
  unfold itunesExplicitKids
  split
  · split <;> rfl
  · rfl

theorem filter_itunesCaptionKids (e : Episode) :
    (itunesCaptionKids e).filter isDescOrEncoded = [] := by
  unfold itunesCaptionKids; split <;> rfl

theorem filter_itunesOrderKids (e : Episode) :
    (itunesOrderKids e).filter isDescOrEncoded = [] := by
  unfold itunesOrderKids
  split
  · split <;> rfl
  · rfl

theorem filter_itunesSubtitleKids (e : Episode) :
    (itunesSubtitleKids e).filter isDescOrEncoded = [] := by
  unfold itunesSubtitleKids; split <;> rfl

theorem filter_itunesSummaryKids (e : Episode) :
    (itunesSummaryKids e).filter isDescOrEncoded = [] := by
  unfold itunesSummaryKids; split <;> rfl

theorem filter_itunesKids (e : Episode) :
    (itunesKids e).filter isDescOrEncoded = [] := by
  unfold itunesKids
  simp only [List.filter_append, filter_itunesAuthorKids, filter_itunesBlockKids,
    filter_itunesImageKids, filter_itunesDurationKids, filter_itunesExplicitKids,
    filter_itunesCaptionKids, filter_itunesOrderKids, filter_itunesSubtitleKids,
    filter_itunesSummaryKids, List.append_nil]

theorem filter_descContentKids (e : Episode) :
    (descContentKids e).filter isDescOrEncoded = descContentKids e := by
  unfold descContentKids
  split
  · cases e.rss_content <;> rfl
  · split
    · rfl
    · cases e.rss_content <;> rfl

theorem descContentKids_eq_claimed (e : Episode) :
    descContentKids e = claimedDescContent e.rss_description e.rss_content := by
  unfold descContentKids claimedDescContent
  rcases hc : e.rss_content with _ | c <;>
    cases hd : truthyOpt e.rss_description <;>
      simp [hc, hd]

theorem rss_entry_children_filter (e : Episode) (l : List SubElem)
    (hg : rss_guard e = true) (hl : enclosureKids e = .ok l)
    (hlf : l.filter isDescOrEncoded = []) :
    ∃ it, rss_entry e = .ok it ∧
      it.children.filter isDescOrEncoded = descContentKids e := by
  refine ⟨_, rss_entry_ok e l hg hl, ?_⟩
  simp only [List.filter_append, filter_titleKids, filter_linkKids,
    filter_descContentKids, filter_authorKids, filter_guidKids,
    filter_categoryKids, filter_commentsKids, hlf, filter_pubDateKids,
    filter_itunesKids, List.append_nil, List.nil_append]

/-! ### C1, C2, C6 -/

/-- C1 (counterexample): an episode whose title has been SET — to the
empty string — through the public accessor, with description and
content unset and no other field touched, still makes `rss_entry` raise
"Required fields not set": the render guard tests Python truthiness,
not set-ness, refuting the claimed if-and-only-if. -/
theorem rss_entry_guard_counterexample :
    (title_call Episode.empty (some "")).1.rss_title = some "" ∧
    (title_call Episode.empty (some "")).1.rss_description = none ∧
    (title_call Episode.empty (some "")).1.rss_content = none ∧
    rss_entry (title_call Episode.empty (some "")).1
      = .error "Required fields not set" :=
  ⟨rfl, rfl, rfl, rfl⟩

/-- C1 (amended): provided every set field is valid (no half-filled
enclosure), `rss_entry` raises exactly when title, description and
content are all FALSY — unset, or set to an empty string — and when at
least one of them is truthy it succeeds and returns an `item` element. -/
theorem rss_entry_guard_amended (e : Episode) (henc : enclosureValid e) :
    ((∃ msg, rss_entry e = .error msg) ↔
      (truthyOpt e.rss_title = false ∧ truthyOpt e.rss_description = false ∧
        e.rss_content = none)) ∧
    ((truthyOpt e.rss_title = true ∨ truthyOpt e.rss_description = true ∨
        e.rss_content.isSome = true) →
      ∃ it, rss_entry e = .ok it ∧ it.tag = "item") := by
  obtain ⟨l, hl, -⟩ := enclosureKids_ok_of_valid e henc
  have hiff : rss_guard e = false ↔
      (truthyOpt e.rss_title = false ∧ truthyOpt e.rss_description = false ∧
        e.rss_content = none) := by
    unfold rss_guard
    rcases hc : e.rss_content with _ | c <;> simp
  constructor
  · constructor
    · intro ⟨msg, hmsg⟩
      rcases hg : rss_guard e with _ | _
      · exact hiff.mp hg
      · rw [rss_entry_ok e l hg hl] at hmsg
        cases hmsg
    · intro h3
      have hg : rss_guard e = false := hiff.mpr h3
      refine ⟨"Required fields not set", ?_⟩
      unfold rss_entry
      rw [hg]
      rfl
  · intro h
    have hg : rss_guard e = true := by
      unfold rss_guard
      rcases h with h | h | h <;> simp [h]
    exact ⟨_, rss_entry_ok e l hg hl, rfl⟩

/-- Closed instantiation of `rss_entry_guard_amended` at an episode
with only a title. -/
theorem rss_entry_guard_amended_witness :
    ∃ it, rss_entry { Episode.empty with rss_title := some "An Episode" }
        = .ok it ∧ it.tag = "item" :=
  (rss_entry_guard_amended { Episode.empty with rss_title := some "An Episode" }
    (fun _ h => nomatch h)).2 (Or.inl rfl)

/-- C2 (counterexample): with description SET to the empty string and
content set, the claim as stated demands a description element plus an
encoded element; the code instead treats the empty description as unset
and emits a single description element carrying the content text, with
no encoded element. -/
theorem desc_content_counterexample :
    (content_call (description_call Episode.empty (some "")).1
        (some "X") none).1.rss_description = some "" ∧
    (content_call (description_call Episode.empty (some "")).1
        (some "X") none).1.rss_content = some ⟨"X", none⟩ ∧
    rss_entry (content_call (description_call Episode.empty (some "")).1
        (some "X") none).1
      = .ok ⟨"item", [descElem "X"]⟩ :=
  ⟨rfl, rfl, rfl⟩

/-- C2 (amended): for an episode with a truthy description or a stored
content (and valid enclosure data), rendering succeeds and its
description/content children are exactly as claimed: both present —
description text plus the encoded element, CDATA-wrapped exactly when
the stored content type is "CDATA"; only a truthy description — just
the description; only content (description unset or empty) — a
description carrying the content text. -/
theorem desc_content_amended (e : Episode) (henc : enclosureValid e)
    (h : truthyOpt e.rss_description = true ∨ e.rss_content.isSome = true) :
    ∃ it, rss_entry e = .ok it ∧
      it.children.filter isDescOrEncoded
        = claimedDescContent e.rss_description e.rss_content := by
  obtain ⟨l, hl, hlf⟩ := enclosureKids_ok_of_valid e henc
  have hg : rss_guard e = true := by
    unfold rss_guard
    rcases h with h | h <;> simp [h]
  obtain ⟨it, hit, hfil⟩ := rss_entry_children_filter e l hg hl hlf
  exact ⟨it, hit, hfil.trans (descContentKids_eq_claimed e)⟩

/-- Closed instantiation of `desc_content_amended` at an episode with
both description and CDATA content. -/
theorem desc_content_amended_witness :
    ∃ it, rss_entry { Episode.empty with
        rss_description := some "d", rss_content := some ⟨"c", some "CDATA"⟩ }
      = .ok it ∧
      it.children.filter isDescOrEncoded
        = claimedDescContent (some "d") (some ⟨"c", some "CDATA"⟩) :=
  desc_content_amended
    { Episode.empty with
        rss_description := some "d", rss_content := some ⟨"c", some "CDATA"⟩ }
    (fun _ h => nomatch h) (Or.inl rfl)

/-- C6 (counterexample): through the public accessor an enclosure with
only the url supplied IS reachable — length and type are stored absent —
and rendering an otherwise-renderable episode in that state raises the
lxml attribute `TypeError` instead of emitting an enclosure element. -/
theorem enclosure_counterexample :
    (enclosure_call Episode.empty
        (some "http://example.org/ep1.mp3") none none).1.rss_enclosure
      = some ⟨"http://example.org/ep1.mp3", none, none⟩ ∧
    rss_entry (title_call (enclosure_call Episode.empty
        (some "http://example.org/ep1.mp3") none none).1 (some "t")).1
      = .error "TypeError: Argument must be bytes or unicode, got NoneType" :=
  ⟨rfl, rfl⟩

/-- C6 (amended): the enclosure accessor only requires url; length and
type are stored as given, possibly absent.  When all three are present,
`rss_entry` (on an episode passing the content guard) emits an
enclosure element carrying the url, length and type attributes; when
length or type is absent, `rss_entry` raises instead of emitting. -/
theorem enclosure_amended (e : Episode) (enc : Enclosure)
    (h : e.rss_enclosure = some enc) :
    (∀ lv tv, enc.length = some lv → enc.type = some tv →
      rss_guard e = true →
      ∃ it, rss_entry e = .ok it ∧
        (⟨"enclosure", [("url", enc.url), ("length", lv), ("type", tv)],
          .noText⟩ : SubElem) ∈ it.children) ∧
    ((enc.length = none ∨ enc.type = none) →
      ∃ msg, rss_entry e = .error msg) := by
  constructor
  · intro lv tv hlen hty hg
    have hl : enclosureKids e
        = .ok [⟨"enclosure", [("url", enc.url), ("length", lv), ("type", tv)],
            .noText⟩] := by
      simp only [enclosureKids, h, hlen, hty, attrValue]
    refine ⟨_, rss_entry_ok e _ hg hl, ?_⟩
    simp [List.mem_append]
  · intro hlt
    rcases hg : rss_guard e with _ | _
    · exact ⟨"Required fields not set", by unfold rss_entry; rw [hg]; rfl⟩
    · have herr : ∃ msg, enclosureKids e = .error msg := by
        rcases hlt with hl | ht
        · rcases hty : enc.type with _ | tv <;>
            simp only [enclosureKids, h, hl, hty, attrValue] <;> exact ⟨_, rfl⟩
        · rcases hlen : enc.length with _ | lv <;>
            simp only [enclosureKids, h, ht, hlen, attrValue] <;> exact ⟨_, rfl⟩
      obtain ⟨msg, hmsg⟩ := herr
      exact ⟨msg, by unfold rss_entry; rw [hg, hmsg]; rfl⟩

/-- Closed instantiation of `enclosure_amended` on a fully specified
enclosure. -/
theorem enclosure_amended_witness :
    ∃ it, rss_entry { Episode.empty with
        rss_title := some "t",
        rss_enclosure := some ⟨"u", some "123", some "audio/mpeg"⟩ }
      = .ok it ∧
      (⟨"enclosure", [("url", "u"), ("length", "123"), ("type", "audio/mpeg")],
        .noText⟩ : SubElem) ∈ it.children :=
  (enclosure_amended
    { Episode.empty with
        rss_title := some "t",
        rss_enclosure := some ⟨"u", some "123", some "audio/mpeg"⟩ }
    ⟨"u", some "123", some "audio/mpeg"⟩ rfl).1 "123" "audio/mpeg" rfl rfl rfl

/-! ### C4 and C10 -/

theorem url_setter_ok (url : String) (h : url ≠ "") :
    url_setter url = .ok (url, url_warnings url) := by
  unfold url_setter; rw [if_neg h]

theorem media_init_explicit (url t : String) (hurl : url ≠ "") (ht : t ≠ "") :
    Media.init url (.int 37) (some t)
      = (url_warnings url ++ type_warnings t, .ok ⟨url, 37, type_norm t⟩) := by
  have hs : size_setter (.int 37) = .ok (37, []) := rfl
  simp [Media.init, url_setter_ok url hurl, hs, type_setter, ht]

theorem media_init_notype (url : String) (hurl : url ≠ "")
    (hraw : file_types.lookup (path_file_extension url) = none) :
    Media.init url (.int 37) none
      = (url_warnings url, .error (.extNotRecognized (path_file_extension url))) := by
  have hs : size_setter (.int 37) = .ok (37, []) := rfl
  simp [Media.init, url_setter_ok url hurl, hs, get_type, hraw]

/-- C4 (counterexample): constructing a Media from an
unsupported-extension URL with NO explicit type argument does not
complete successfully: the url setter's advisory warning is issued, but
the type inference `get_type` then raises a validation failure, so the
claim's "for every such URL (including when no explicit type argument
is supplied)" is false. -/
theorem media_init_counterexample :
    (Media.init "http://x.com/a.ogg" (.int 0) none).2
      = .error (.extNotRecognized "ogg") ∧
    (Media.init "http://x.com/a.ogg" (.int 0) none).1
      = [.unsupportedExtension "ogg", .sizeZero] :=
  ⟨rfl, rfl⟩

/-- C4 (amended): a Media URL with an unsupported (lower-cased)
extension, or with a non-http(s) scheme, makes construction issue the
corresponding non-fatal advisory warning while still completing with
the url stored — PROVIDED an explicit non-empty type is supplied.  When
no explicit type is supplied and the extension is not in the supported
table, construction instead fails with the type-inference validation
failure (the url warning having been issued). -/
theorem media_init_warning_amended (url t : String)
    (hurl : url ≠ "") (ht : t ≠ "") :
    ((file_types.lookup (path_file_extension_lower url)).isNone = true →
      MediaWarning.unsupportedExtension (path_file_extension_lower url)
        ∈ (Media.init url (.int 37) (some t)).1 ∧
      ∃ m, (Media.init url (.int 37) (some t)).2 = .ok m ∧ m.url = url) ∧
    ((urlparse url).scheme ≠ "http" → (urlparse url).scheme ≠ "https" →
      MediaWarning.unsupportedScheme (urlparse url).scheme
        ∈ (Media.init url (.int 37) (some t)).1 ∧
      ∃ m, (Media.init url (.int 37) (some t)).2 = .ok m ∧ m.url = url) ∧
    (file_types.lookup (path_file_extension url) = none →
      (Media.init url (.int 37) none).2
        = .error (.extNotRecognized (path_file_extension url)) ∧
      ((file_types.lookup (path_file_extension_lower url)).isNone = true →
        MediaWarning.unsupportedExtension (path_file_extension_lower url)
          ∈ (Media.init url (.int 37) none).1)) := by
  have hinit := media_init_explicit url t hurl ht
  refine ⟨?_, ?_, ?_⟩
  · intro hext
    constructor
    · simp [hinit, url_warnings, hext]
    · exact ⟨⟨url, 37, type_norm t⟩, by rw [hinit], rfl⟩
  · intro h1 h2
    constructor
    · cases hc : (file_types.lookup (path_file_extension_lower url)).isNone <;>
        simp [hinit, url_warnings, hc, h1, h2]
    · exact ⟨⟨url, 37, type_norm t⟩, by rw [hinit], rfl⟩
  · intro hraw
    have hn := media_init_notype url hurl hraw
    constructor
    · simp [hn]
    · intro hext
      simp [hn, url_warnings, hext]

/-- Closed instantiation of `media_init_warning_amended` on an
unsupported ".ogg" extension with and without an explicit type. -/
theorem media_init_warning_amended_witness :
    (MediaWarning.unsupportedExtension "ogg"
        ∈ (Media.init "http://x.com/a.ogg" (.int 37) (some "audio/ogg")).1 ∧
      ∃ m, (Media.init "http://x.com/a.ogg" (.int 37) (some "audio/ogg")).2
          = .ok m ∧ m.url = "http://x.com/a.ogg") ∧
    (Media.init "http://x.com/a.ogg" (.int 37) none).2
      = .error (.extNotRecognized "ogg") :=
  ⟨(media_init_warning_amended "http://x.com/a.ogg" "audio/ogg"
      (by decide) (by decide)).1 rfl,
   ((media_init_warning_amended "http://x.com/a.ogg" "audio/ogg"
      (by decide) (by decide)).2.2 rfl).1⟩

/-- C10: the url setter lower-cases the path extension before checking
it against the supported table, while `get_type` looks the raw
extension up without lower-casing; so for a URL whose path ends in an
upper-case variant of a supported extension (and an http(s) scheme),
the url setter issues no warning at all, yet construction with no
explicit type fails with the type-inference validation failure. -/
theorem media_case_sensitivity (url : String) (hurl : url ≠ "")
    (hscheme : (urlparse url).scheme = "http" ∨ (urlparse url).scheme = "https")
    (hlow : (file_types.lookup (path_file_extension_lower url)).isNone = false)
    (hraw : file_types.lookup (path_file_extension url) = none) :
    url_setter url = .ok (url, []) ∧
    ∀ sz r, size_setter sz = .ok r →
      (Media.init url sz none).2
        = .error (.extNotRecognized (path_file_extension url)) := by
  have hw : url_warnings url = [] := by
    have h1 : ¬((urlparse url).scheme ≠ "http" ∧ (urlparse url).scheme ≠ "https") := by
      rcases hscheme with h | h <;> simp [h]
    simp [url_warnings, hlow, h1]
  constructor
  · rw [url_setter_ok url hurl, hw]
  · intro sz r hsz
    simp [Media.init, url_setter_ok url hurl, hsz, get_type, hraw]

/-- Closed instantiation of `media_case_sensitivity` at
"http://x.com/a.MP3". -/
theorem media_case_sensitivity_witness :
    url_setter "http://x.com/a.MP3" = .ok ("http://x.com/a.MP3", []) ∧
    (Media.init "http://x.com/a.MP3" (.int 0) none).2
      = .error (.extNotRecognized "MP3") := by
  have h := media_case_sensitivity "http://x.com/a.MP3" (by decide)
    (Or.inl rfl) rfl rfl
  exact ⟨h.1, h.2 (.int 0) (0, [.sizeZero]) rfl⟩

end Podgen
